import Mathlib

/-!
Verification of the ReBuild pattern-AST library (`rebuild/analyser.py` plus the
builder layer reconstructed from its call sites).

The tree of pattern nodes is embedded as the inductive type `RegexNode`, one
constructor per Python class.  The subclasses `Lookahead`, `NegativeLookahead`,
`Lookbehind` and `NegativeLookbehind` only fix the `symbol` attribute of
`Lookaround`, so they are embedded as abbreviations of the `Lookaround`
constructor.

`optimised` (simplification) is `Option`-valued: the branch of
`RepeatBetweenNM.optimised` taken when `n == m` constructs
`RepeatExactlyN(optimised, is_lazy=...)` without the required positional
argument `n`, which raises `TypeError` in Python; that branch is embedded as
`none`, and every other branch propagates a `none` produced by a recursive
call, exactly as an uncaught exception propagates.

`regex` (rendering) is a total function to `String`.  `Alternation.regex` has
an extra `is_root` parameter that no internal call site supplies (so it is
`False` on every recursive call); it is embedded separately as
`alternationRegex`, and the `Alternation` case of `regex` agrees with
`alternationRegex options as_atom false`.
-/

namespace ReBuild

/-- The pattern-node tree, one constructor per concrete Python node class in
`rebuild/analyser.py`.  Characters are embedded as `String` because the Python
code stores them as strings (and the builder layer also feeds multi-character
raw fragments through `SingleChar`-like verbatim nodes). -/
inductive RegexNode where
  | EmptyNode : RegexNode
  | Sequence (items : List RegexNode) : RegexNode
  | Alternation (options : List RegexNode) : RegexNode
  | SingleChar (char : String) : RegexNode
  | OneOrMore (pattern : RegexNode) (is_lazy : Bool) : RegexNode
  | ZeroOrMore (pattern : RegexNode) (is_lazy : Bool) : RegexNode
  | Optional (pattern : RegexNode) (is_lazy : Bool) : RegexNode
  | CapturingGroup (pattern : RegexNode) : RegexNode
  | NonCapturingGroup (pattern : RegexNode) : RegexNode
  | NamedCapturingGroup (name : String) (pattern : RegexNode) : RegexNode
  | ModeGroup (modifiers : String) (pattern : RegexNode) : RegexNode
  | IfElseGroup (name : String) (thenPat : RegexNode) (elsewise : RegexNode) : RegexNode
  | Lookaround (pattern : RegexNode) (symbol : String) : RegexNode
  | AnchorStart : RegexNode
  | AnchorEnd : RegexNode
  | CharSet (options : List RegexNode) : RegexNode
  | Range (from_char : String) (to_char : String) : RegexNode
  | RepeatExactlyN (pattern : RegexNode) (n : Nat) (is_lazy : Bool) : RegexNode
  | RepeatAtLeastN (pattern : RegexNode) (n : Nat) (is_lazy : Bool) : RegexNode
  | RepeatAtMostN (pattern : RegexNode) (n : Nat) (is_lazy : Bool) : RegexNode
  | RepeatBetweenNM (pattern : RegexNode) (n : Nat) (m : Nat) (is_lazy : Bool) : RegexNode

open RegexNode

/-- `__bool__`: the base class returns `True`, only `EmptyNode` overrides it
with `False`.  Python truthiness of a node, the "is-meaningful" test. -/
def isMeaningful : RegexNode → Bool
  | .EmptyNode => false
  | _ => true

/-- The Python test `type(x) is EmptyNode` (the `EmptyNode` class carries no
fields, so type identity and value equality agree). -/
def isEmptyNode : RegexNode → Bool
  | .EmptyNode => true
  | _ => false

mutual

/-- `optimised` of each node class.  The checks written in Python as
`type(self.pattern) is EmptyNode` are embedded as equality with `EmptyNode`
(the class carries no fields, so type identity and value equality agree).
`none` models the `TypeError` raised by the `n == m` branch of
`RepeatBetweenNM.optimised` (it calls `RepeatExactlyN` without the required
argument `n`), and its propagation out of every enclosing recursive call. -/
def optimised : RegexNode → Option RegexNode
  | .EmptyNode => some .EmptyNode
  | .Sequence items =>
      match optimisedList items with
      | none => none
      | some opt =>
        match opt.filter isMeaningful with
        | [] => some .EmptyNode
        | [x] => some x
        | non_empty => some (.Sequence non_empty)
  | .Alternation options =>
      match optimisedList options with
      | none => none
      | some opt => some (.Alternation opt)
  | .SingleChar c => some (.SingleChar c)
  | .OneOrMore pattern is_lazy =>
      if isEmptyNode pattern then some .EmptyNode
      else
        match optimised pattern with
        | none => none
        | some opt => some (.OneOrMore opt is_lazy)
  | .ZeroOrMore pattern is_lazy =>
      if isEmptyNode pattern then some .EmptyNode
      else
        match optimised pattern with
        | none => none
        | some opt => some (.ZeroOrMore opt is_lazy)
  | .Optional pattern is_lazy =>
      if isEmptyNode pattern then some .EmptyNode
      else
        match optimised pattern with
        | none => none
        | some opt => some (.Optional opt is_lazy)
  | .CapturingGroup pattern =>
      match optimised pattern with
      | none => none
      | some opt => some (.CapturingGroup opt)
  | .NonCapturingGroup pattern => optimised pattern
  | .NamedCapturingGroup name pattern =>
      match optimised pattern with
      | none => none
      | some opt => some (.NamedCapturingGroup name opt)
  | .ModeGroup modifiers pattern =>
      if isEmptyNode pattern then some .EmptyNode
      else if modifiers.length = 0 then optimised pattern
      else
        match optimised pattern with
        | none => none
        | some opt => some (.ModeGroup modifiers opt)
  | .IfElseGroup name thenPat elsewise =>
      if isEmptyNode thenPat && isEmptyNode elsewise then some .EmptyNode
      else
        match optimised thenPat with
        | none => none
        | some t =>
          match optimised elsewise with
          | none => none
          | some e => some (.IfElseGroup name t e)
  | .Lookaround pattern symbol =>
      if isEmptyNode pattern then some .EmptyNode
      else
        match optimised pattern with
        | none => none
        | some opt => some (.Lookaround opt symbol)
  | .AnchorStart => some .AnchorStart
  | .AnchorEnd => some .AnchorEnd
  | .CharSet options => some (.CharSet options)
  | .Range from_char to_char =>
      if from_char = to_char then some (.SingleChar from_char)
      else some (.Range from_char to_char)
  | .RepeatExactlyN pattern n is_lazy =>
      if isEmptyNode pattern then some .EmptyNode
      else if n = 0 then some .EmptyNode
      else
        match optimised pattern with
        | none => none
        | some opt =>
          if n = 1 then some opt
          else some (.RepeatExactlyN opt n is_lazy)
  | .RepeatAtLeastN pattern n is_lazy =>
      if isEmptyNode pattern then some .EmptyNode
      else
        match optimised pattern with
        | none => none
        | some opt =>
          if n = 0 then some (.ZeroOrMore opt false)
          else if n = 1 then some (.OneOrMore opt false)
          else some (.RepeatAtLeastN opt n is_lazy)
  | .RepeatAtMostN pattern n is_lazy =>
      if isEmptyNode pattern then some .EmptyNode
      else if n = 0 then some .EmptyNode
      else
        match optimised pattern with
        | none => none
        | some opt =>
          if n = 1 then some opt
          else some (.RepeatAtMostN opt n is_lazy)
  | .RepeatBetweenNM pattern n m is_lazy =>
      if isEmptyNode pattern then some .EmptyNode
      else
        match optimised pattern with
        | none => none
        | some opt =>
          if n = m then none
          else if m = 0 then some .EmptyNode
          else if m = 1 then some (.Optional opt (n == 0))
          else some (.RepeatBetweenNM opt n m is_lazy)

/-- `[item.optimised() for item in items]` with exception propagation:
the first failing element aborts the whole list. -/
def optimisedList : List RegexNode → Option (List RegexNode)
  | [] => some []
  | x :: xs =>
      match optimised x with
      | none => none
      | some x' =>
        match optimisedList xs with
        | none => none
        | some xs' => some (x' :: xs')

end

mutual

/-- `regex(as_atom)` of each node class.  `EmptyNode` inherits the base-class
body returning the empty string.  The `Alternation` case fixes `is_root` to
`False`, matching every internal call site (see `alternationRegex`). -/
def regex : RegexNode → Bool → String
  | .EmptyNode, _ => ""
  | .Sequence items, as_atom =>
      let pattern := regexConcat items
      if as_atom then "(?:" ++ pattern ++ ")" else pattern
  | .Alternation options, _ => "(?:" ++ regexAlt options ++ ")"
  | .SingleChar char, _ => char
  | .OneOrMore pattern is_lazy, as_atom =>
      if isEmptyNode pattern then ""
      else
        let r := regex pattern true ++ "+"
        let r := if is_lazy then r ++ "?" else r
        if as_atom then "(?:" ++ r ++ ")" else r
  | .ZeroOrMore pattern is_lazy, as_atom =>
      if isEmptyNode pattern then ""
      else
        let r := regex pattern true ++ "*"
        let r := if is_lazy then r ++ "?" else r
        if as_atom then "(?:" ++ r ++ ")" else r
  | .Optional pattern is_lazy, as_atom =>
      if isEmptyNode pattern then ""
      else
        let r := regex pattern true ++ "?"
        let r := if is_lazy then r ++ "?" else r
        if as_atom then "(?:" ++ r ++ ")" else r
  | .CapturingGroup pattern, _ => "(" ++ regex pattern false ++ ")"
  | .NonCapturingGroup pattern, _ => "(?:" ++ regex pattern false ++ ")"
  | .NamedCapturingGroup name pattern, _ =>
      "(?P<" ++ name ++ ">" ++ regex pattern false ++ ")"
  | .ModeGroup modifiers pattern, as_atom =>
      if isEmptyNode pattern then ""
      else if modifiers.length = 0 then regex pattern as_atom
      else "(?" ++ modifiers ++ ":" ++ regex pattern false ++ ")"
  | .IfElseGroup name thenPat elsewise, _ =>
      "(?(" ++ name ++ ")" ++ regex thenPat false ++ "|" ++ regex elsewise false ++ ")"
  | .Lookaround pattern symbol, _ => "(?" ++ symbol ++ regex pattern false ++ ")"
  | .AnchorStart, _ => "^"
  | .AnchorEnd, _ => "$"
  | .CharSet options, _ => "[" ++ regexConcat options ++ "]"
  | .Range from_char to_char, _ => from_char ++ "-" ++ to_char
  | .RepeatExactlyN pattern n is_lazy, as_atom =>
      let r := regex pattern true
      if r = "" then ""
      else
        let r := r ++ "\x7b" ++ toString n ++ "\x7d"
        let r := if is_lazy then r ++ "?" else r
        if as_atom then "(?:" ++ r ++ ")" else r
  | .RepeatAtLeastN pattern n is_lazy, as_atom =>
      let r := regex pattern true
      if r = "" then ""
      else
        let r := r ++ "\x7b" ++ toString n ++ ",\x7d"
        let r := if is_lazy then r ++ "?" else r
        if as_atom then "(?:" ++ r ++ ")" else r
  | .RepeatAtMostN pattern n is_lazy, as_atom =>
      let r := regex pattern true
      if r = "" then ""
      else
        let r := r ++ "\x7b," ++ toString n ++ "\x7d"
        let r := if is_lazy then r ++ "?" else r
        if as_atom then "(?:" ++ r ++ ")" else r
  | .RepeatBetweenNM pattern n m is_lazy, as_atom =>
      let r := regex pattern true
      if r = "" then ""
      else
        let r := r ++ "\x7b" ++ toString n ++ "," ++ toString m ++ "\x7d"
        let r := if is_lazy then r ++ "?" else r
        if as_atom then "(?:" ++ r ++ ")" else r

/-- `"".join(item.regex() for item in items)`: concatenation of the members'
default (non-atomic) renders, used by `Sequence.regex` and `CharSet.regex`. -/
def regexConcat : List RegexNode → String
  | [] => ""
  | x :: xs => regex x false ++ regexConcat xs

/-- `"|".join(option.regex() for option in options)`, used by
`Alternation.regex`. -/
def regexAlt : List RegexNode → String
  | [] => ""
  | [x] => regex x false
  | x :: xs => regex x false ++ "|" ++ regexAlt xs

end

/-- `Alternation.regex(as_atom=False, is_root=False)` with both flags
explicit: the joined option renders, returned bare when `is_root` and wrapped
in a non-capturing group otherwise (`as_atom` is ignored by the source). -/
def alternationRegex (options : List RegexNode) (as_atom : Bool) (is_root : Bool) : String :=
  let pattern := regexAlt options
  if is_root then pattern else "(?:" ++ pattern ++ ")"

/-!
The fluent builder layer (`rebuild/builder.py`) is not among the examined
source files; only its two call sites (`examples/email.py`, `examples/url.py`)
and the spec's reconstruction of its contract are available.  The definitions
below are therefore modelled from the spec, which requires the builder to
"reproduce their documented literal outputs exactly".
-/

/-- Modelled from the spec: the characters that are syntactically special in
the target pattern mini-language, which `literally` must escape. -/
def special_chars : List Char :=
  ['.', '^', '$', '*', '+', '?', '(', ')', '[', ']', '\x7b', '\x7d', '|', '\\']

/-- Modelled from the spec: escape one character of a literal text string when
it is special in the mini-language, else keep it verbatim. -/
def escapeChar (c : Char) : String :=
  if special_chars.contains c then "\\" ++ String.singleton c
  else String.singleton c

/-- Modelled from the spec: `literally` — a Sequence of Single Characters
matching the given text verbatim, escaping special characters. -/
def literally (s : String) : RegexNode :=
  .Sequence (s.toList.map (fun c => .SingleChar (escapeChar c)))

/-- Modelled from the spec: `digit` — a Character Class matching one decimal
digit (the class's single member is the mini-language digit shorthand, as
required by the literal fixture outputs). -/
def digit : RegexNode := .CharSet [.SingleChar "\\d"]

/-- Modelled from the spec: `letter` — a Character Class matching one upper-
or lower-case alphabetic character. -/
def letter : RegexNode := .CharSet [.Range "a" "z", .Range "A" "Z"]

/-- Modelled from the spec: `one_of` — a Character Class matching any one of
the candidate characters (taken verbatim, no escaping inside the class, as the
email fixture's unescaped dot shows). -/
def one_of (chars : String) : RegexNode :=
  .CharSet (chars.toList.map (fun c => .SingleChar (String.singleton c)))

/-- Modelled from the spec: a bare text fragment handed directly to a
combinator is inserted verbatim (raw passthrough, never escaped). -/
def rawFragment (s : String) : RegexNode := .SingleChar s

/-- Member list of a Character Class node, `none` for any other node; used by
`either` to detect when all its options are Character Classes. -/
def memberListOfCharSets : List RegexNode → Option (List RegexNode)
  | [] => some []
  | .CharSet opts :: rest =>
      match memberListOfCharSets rest with
      | none => none
      | some ms => some (opts ++ ms)
  | _ => none

/-- Modelled from the spec: `either` — an Alternation over the given
sub-patterns; when every option is a Character Class the classes are merged
into one Character Class (the spec requires the builder to reproduce the email
fixture `[\da-zA-Z._%+-]`, which forces this merge). -/
def either (options : List RegexNode) : RegexNode :=
  match memberListOfCharSets options with
  | some members => .CharSet members
  | none => .Alternation options

/-- Modelled from the spec: `one_or_more`, greedy by default. -/
def one_or_more (p : RegexNode) : RegexNode := .OneOrMore p false

/-- Modelled from the spec: `at_least_n_times` — a Repeat-At-Least-N, greedy. -/
def at_least_n_times (n : Nat) (p : RegexNode) : RegexNode := .RepeatAtLeastN p n false

/-- Modelled from the spec: `capture_as` — a Named Capturing Group. -/
def capture_as (name : String) (p : RegexNode) : RegexNode :=
  .NamedCapturingGroup name p

/-- Items a node contributes to an infix-append Sequence: a Sequence is
flattened, anything else is a singleton.  Modelled from the spec: "chained
appends flatten into one Sequence rather than nesting". -/
def seqItems : RegexNode → List RegexNode
  | .Sequence items => items
  | p => [p]

/-- Modelled from the spec: the infix "append" composition of two patterns
into one flat Sequence. -/
def appendPat (a b : RegexNode) : RegexNode :=
  .Sequence (seqItems a ++ seqItems b)

/-- Modelled from the spec: `force_full` — the pattern wrapped with a Start
Anchor before and an End Anchor after. -/
def force_full (p : RegexNode) : RegexNode :=
  appendPat (appendPat .AnchorStart p) .AnchorEnd

/-- The email pattern exactly as `examples/email.py` builds it. -/
def emailPat : RegexNode :=
  force_full
    (appendPat
      (appendPat
        (capture_as "name"
          (one_or_more (either [digit, letter, one_of "._%+-"])))
        (literally "@"))
      (capture_as "domain"
        (appendPat
          (appendPat
            (one_or_more (rawFragment "[\\d\\w.-]"))
            (literally "."))
          (at_least_n_times 2 letter))))

/-! Helper lemmas shared by several of the claim theorems. -/

lemma isMeaningful_eq_false_iff (p : RegexNode) :
    isMeaningful p = false ↔ p = .EmptyNode := by
  cases p <;> simp [isMeaningful]

lemma isMeaningful_eq_not_isEmptyNode (p : RegexNode) :
    isMeaningful p = !(isEmptyNode p) := by
  cases p <;> simp [isMeaningful, isEmptyNode]

lemma isEmptyNode_eq_true_iff (p : RegexNode) :
    isEmptyNode p = true ↔ p = .EmptyNode := by
  cases p <;> simp [isEmptyNode]

lemma optimisedList_forall2 {l l' : List RegexNode}
    (h : optimisedList l = some l') :
    List.Forall₂ (fun a b => optimised a = some b) l l' := by
  induction l generalizing l' with
  | nil =>
      simp only [optimisedList, Option.some.injEq] at h
      subst h
      exact List.Forall₂.nil
  | cons x xs ih =>
      rw [optimisedList] at h
      cases hx : optimised x with
      | none => rw [hx] at h; exact absurd h (by simp)
      | some x' =>
          rw [hx] at h
          cases hxs : optimisedList xs with
          | none => rw [hxs] at h; exact absurd h (by simp)
          | some xs' =>
              rw [hxs] at h
              simp only [Option.some.injEq] at h
              subst h
              exact List.Forall₂.cons hx (ih hxs)

lemma intercalate_go_spec (sep : String) :
    ∀ (l : List String) (acc : String),
      String.intercalate.go acc sep l
        = acc ++ (l.map (fun a => sep ++ a)).foldr (· ++ ·) "" := by
  intro l
  induction l with
  | nil => intro acc; simp [String.intercalate.go]
  | cons a as ih =>
      intro acc
      rw [String.intercalate.go, ih]
      simp [String.append_assoc]

lemma regexAlt_eq_intercalate (l : List RegexNode) :
    regexAlt l = String.intercalate "|" (l.map (fun o => regex o false)) := by
  induction l with
  | nil => rfl
  | cons x xs ih =>
      cases xs with
      | nil => rfl
      | cons y t =>
          rw [show regexAlt (x :: y :: t)
                = regex x false ++ "|" ++ regexAlt (y :: t) from rfl, ih]
          simp only [List.map, String.intercalate, intercalate_go_spec,
            List.foldr, String.append_assoc]

/-! The claim theorems. -/

/-- C1: the spec's collapse law for `Repeat-Between(P, n, n)` states the
result simplifies like `Repeat-Exactly(P, n)`, the collapse supplying the
shared count `n`.  The code instead constructs `RepeatExactlyN` without its
required count argument, raising `TypeError`: simplification fails (embedded
as `none`) on the concrete input `RepeatBetweenNM(SingleChar("a"), 2, 2)`,
while `RepeatExactlyN(SingleChar("a"), 2)` itself simplifies fine. -/
theorem C1_repeat_between_equal_counts_raises :
    optimised (.RepeatBetweenNM (.SingleChar "a") 2 2 false) = none ∧
    optimised (.RepeatExactlyN (.SingleChar "a") 2 false)
      = some (.RepeatExactlyN (.SingleChar "a") 2 false) :=
  ⟨rfl, rfl⟩

/-- C2: the spec claims every operation is total on well-formed trees and
never raises.  The simplification of the well-formed tree
`RepeatBetweenNM(SingleChar("b"), 3, 3, is_lazy=True)` raises `TypeError`
(the `n == m` branch constructs `RepeatExactlyN` without its required count
argument), embedded here as the `none` result. -/
theorem C2_optimised_raises_on_well_formed_tree :
    optimised (.RepeatBetweenNM (.SingleChar "b") 3 3 true) = none :=
  rfl

/-- C3: building the email pattern exactly as `examples/email.py` does, via
the spec-modelled builder layer, and rendering it yields exactly the
documented fixture text
`^(?P<name>[\da-zA-Z._%+-]+)@(?P<domain>[\d\w.-]+\.[a-zA-Z]{2,})$`. -/
theorem C3_email_fixture :
    regex emailPat false
      = "^(?P<name>[\\da-zA-Z._%+-]+)@(?P<domain>[\\d\\w.-]+\\.[a-zA-Z]\x7b2,\x7d)$" :=
  rfl

/-- C4 counterexample: the claim says a One-Or-More whose child renders to
empty text renders to empty text even when the child is not the Empty
variant, naming `Sequence([])` as an example.  But `Sequence([])` (which does
render to `""` on its own) under One-Or-More renders to `"(?:)+"`, not `""`:
the code tests `type(pattern) is EmptyNode`, not the child's rendered text. -/
theorem C4_cex_empty_rendering_child :
    regex (.OneOrMore (.Sequence []) false) false = "(?:)+" ∧
    regex (.Sequence []) false = "" ∧
    ("(?:)+" : String) ≠ "" :=
  ⟨rfl, rfl, by decide⟩

/-- C4 (amended): One-Or-More, Zero-Or-More and Optional render to empty text
exactly when the child is the Empty variant itself; for any other child
(including one whose own render is empty) the render is the child's atomic
render followed by `+`, `*` or `?` respectively, plus an extra `?` when lazy,
the whole wrapped in a non-capturing group when requested as an atom. -/
theorem C4_quantifier_render (p : RegexNode) (lz atom : Bool) :
    (regex (.OneOrMore p lz) atom =
      if isEmptyNode p then ""
      else
        let core := regex p true ++ "+" ++ (if lz then "?" else "")
        if atom then "(?:" ++ core ++ ")" else core) ∧
    (regex (.ZeroOrMore p lz) atom =
      if isEmptyNode p then ""
      else
        let core := regex p true ++ "*" ++ (if lz then "?" else "")
        if atom then "(?:" ++ core ++ ")" else core) ∧
    (regex (.Optional p lz) atom =
      if isEmptyNode p then ""
      else
        let core := regex p true ++ "?" ++ (if lz then "?" else "")
        if atom then "(?:" ++ core ++ ")" else core) := by
  refine ⟨?_, ?_, ?_⟩ <;>
    cases p <;>
      simp [regex, isEmptyNode] <;>
        cases lz <;> cases atom <;>
          simp [String.append_assoc]

/-- C5 counterexample: the claim says rendering
`One-Or-More(Sequence([charA, charB]))` with the atom flag set yields
`(?:ab)+`; the code wraps a second non-capturing group around it instead. -/
theorem C5_cex_atom_render :
    regex (.OneOrMore (.Sequence [.SingleChar "a", .SingleChar "b"]) false) true
      ≠ "(?:ab)+" := by
  decide

/-- C5 (amended): rendering `One-Or-More(Sequence([a, b]))` without the atom
flag yields `(?:ab)+` (the inner wrap coming from the child's atomic render);
with the atom flag set the whole is wrapped in a further non-capturing group,
yielding `(?:(?:ab)+)`. -/
theorem C5_atom_wrapping :
    regex (.OneOrMore (.Sequence [.SingleChar "a", .SingleChar "b"]) false) false
      = "(?:ab)+" ∧
    regex (.OneOrMore (.Sequence [.SingleChar "a", .SingleChar "b"]) false) true
      = "(?:(?:ab)+)" :=
  ⟨rfl, rfl⟩

/-- C6: simplifying `Non-Capturing-Group(P)` yields exactly the result of
simplifying `P` alone (hence identical renders of the simplified forms),
while rendering the un-simplified node wraps `P`'s non-atomic render in
`(?:` ... `)`. -/
theorem C6_non_capturing_group_transparency (p : RegexNode) (atom : Bool) :
    optimised (.NonCapturingGroup p) = optimised p ∧
    (optimised (.NonCapturingGroup p)).map (fun q => regex q atom)
      = (optimised p).map (fun q => regex q atom) ∧
    regex (.NonCapturingGroup p) atom = "(?:" ++ regex p false ++ ")" := by
  refine ⟨?_, ?_, ?_⟩ <;> simp [optimised, regex]

/-- C7: simplifying an Alternation keeps exactly one simplified child per
original child, in order, dropping none; rendering joins the children's
renders with `|`, returned bare when the caller-supplied root flag is set and
wrapped in a non-capturing group otherwise (the `regex` entry point fixes the
root flag to `false`, as every internal call site does). -/
theorem C7_alternation (opts opts' : List RegexNode) (atom : Bool)
    (h : optimisedList opts = some opts') :
    optimised (.Alternation opts) = some (.Alternation opts') ∧
    opts'.length = opts.length ∧
    List.Forall₂ (fun o o' => optimised o = some o') opts opts' ∧
    alternationRegex opts atom true
      = String.intercalate "|" (opts.map (fun o => regex o false)) ∧
    alternationRegex opts atom false
      = "(?:" ++ String.intercalate "|" (opts.map (fun o => regex o false)) ++ ")" ∧
    regex (.Alternation opts) atom = alternationRegex opts atom false := by
  refine ⟨?_, ?_, optimisedList_forall2 h, ?_, ?_, ?_⟩
  · simp [optimised, h]
  · exact ((optimisedList_forall2 h).length_eq).symm
  · simp [alternationRegex, regexAlt_eq_intercalate]
  · simp [alternationRegex, regexAlt_eq_intercalate]
  · simp [regex, alternationRegex]

/-- C7 witness: the general theorem applied to the concrete options
`[SingleChar("a"), EmptyNode]` (whose simplification succeeds), showing the
vacuous child is kept. -/
theorem C7_alternation_witness :
    optimised (.Alternation [.SingleChar "a", .EmptyNode])
      = some (.Alternation [.SingleChar "a", .EmptyNode]) :=
  (C7_alternation [.SingleChar "a", .EmptyNode]
    [.SingleChar "a", .EmptyNode] false rfl).1

/-- C8: for a child that is not the Empty variant and a lower bound `n ≠ 1`,
simplifying `Repeat-Between(P, n, 1)` yields an Optional around the
simplified child whose laziness flag is the truth value of `n = 0`; the
repeat's own laziness flag does not appear in the result. -/
theorem C8_repeat_between_upper_one (p p' : RegexNode) (n : Nat) (lz : Bool)
    (hp : isEmptyNode p = false) (hn : n ≠ 1) (ho : optimised p = some p') :
    optimised (.RepeatBetweenNM p n 1 lz) = some (.Optional p' (n == 0)) := by
  simp [optimised, hp, ho, hn]

/-- C8 witness: the theorem at `P = SingleChar("a")`, `n = 0`, a lazy repeat;
the resulting Optional is lazy because `n = 0`, the repeat's flag ignored. -/
theorem C8_repeat_between_upper_one_witness :
    optimised (.RepeatBetweenNM (.SingleChar "a") 0 1 true)
      = some (.Optional (.SingleChar "a") true) :=
  C8_repeat_between_upper_one (.SingleChar "a") (.SingleChar "a") 0 true
    rfl (by decide) rfl

/-- C9: the truthiness test is false exactly on the Empty variant — an empty
Sequence, an empty Alternation and a quantifier over Empty are all truthy —
and Sequence simplification drops exactly those children whose simplified
form is the Empty node, collapsing to Empty or to a lone survivor as the
survivor count dictates. -/
theorem C9_meaningful_and_sequence_drop :
    (∀ p : RegexNode, isMeaningful p = false ↔ p = .EmptyNode) ∧
    isMeaningful (.Sequence []) = true ∧
    isMeaningful (.Alternation []) = true ∧
    isMeaningful (.OneOrMore .EmptyNode false) = true ∧
    ∀ (items opt : List RegexNode), optimisedList items = some opt →
      optimised (.Sequence items) =
        some (match opt.filter (fun o => !(isEmptyNode o)) with
              | [] => .EmptyNode
              | [x] => x
              | survivors => .Sequence survivors) := by
  refine ⟨isMeaningful_eq_false_iff, rfl, rfl, rfl, fun items opt h => ?_⟩
  have hf : opt.filter isMeaningful = opt.filter (fun o => !(isEmptyNode o)) :=
    List.filter_congr (fun o _ => isMeaningful_eq_not_isEmptyNode o)
  simp only [optimised, h]
  rw [hf]
  cases hl : opt.filter (fun o => !(isEmptyNode o)) with
  | nil => rfl
  | cons x xs =>
      cases xs with
      | nil => rfl
      | cons y t => rfl

/-- C9 witness: the theorem's Sequence clause at the concrete child list
`[EmptyNode, SingleChar("a"), EmptyNode]`: both Empty children are dropped
and the lone survivor replaces the Sequence. -/
theorem C9_meaningful_and_sequence_drop_witness :
    optimised (.Sequence [.EmptyNode, .SingleChar "a", .EmptyNode])
      = some (.SingleChar "a") :=
  C9_meaningful_and_sequence_drop.2.2.2.2
    [.EmptyNode, .SingleChar "a", .EmptyNode]
    [.EmptyNode, .SingleChar "a", .EmptyNode] rfl

/-- C10: simplifying a Character Class returns the very same tree without
recursing into its members, so a Character Range with equal bounds kept
inside a class still renders in range form, although that same Range
simplified on its own collapses to a Single Character. -/
theorem C10_charset_identity (opts : List RegexNode) (c : String) :
    optimised (.CharSet opts) = some (.CharSet opts) ∧
    optimised (.Range c c) = some (.SingleChar c) ∧
    optimised (.CharSet [.Range c c]) = some (.CharSet [.Range c c]) ∧
    regex (.CharSet [.Range c c]) false = "[" ++ c ++ "-" ++ c ++ "]" := by
  refine ⟨?_, ?_, ?_, ?_⟩ <;>
    simp [optimised, regex, regexConcat, String.append_assoc]

end ReBuild
